import Mathlib

/-!
Shallow embedding of `src/funcx-v7/receipt_processor/__init__.py` (the
receipt-processing Azure Function `func701` and its helpers
`get_username_from_db`, `get_field_value`, `get_field_confidence`),
together with theorems settling the frozen claims about it.

External collaborators (blob storage, the Document Intelligence service,
MySQL, Cosmos DB) are modelled as oracle fields of a `World` record whose
outcomes are `Except`/`Option` values; the handler itself is a pure
function from the event and the world to a `RunResult` that records the
returned value, how many times each collaborator was invoked, the
documents successfully persisted, and the log trace.
-/

namespace AppInvoices

/-- Python truthiness of an optional string: `None` and `""` are falsy. -/
def truthyOpt : Option String → Bool
  | some s => s != ""
  | none => false

/-- Truthiness of a plain string (empty string is falsy). -/
def truthyStr (s : String) : Bool := s != ""

/-- A scalar value as stored in the receipt data dictionaries: either a
string or a number (Python numbers are modelled as rationals). -/
inductive Scalar where
  | s (v : String)
  | n (v : ℚ)
  deriving DecidableEq

/-- A date value (`field.value_date`), rendered by `strftime('%Y-%m-%d')`. -/
structure DateV where
  y : Nat
  m : Nat
  d : Nat
  deriving DecidableEq

/-- A time value (`field.value_time`), rendered by `strftime('%H:%M:%S')`. -/
structure TimeV where
  hh : Nat
  mm : Nat
  ss : Nat
  deriving DecidableEq

/-- A currency value (`field.value_currency`) with an optional `amount`. -/
structure CurrencyV where
  amount : Option ℚ
  deriving DecidableEq

/-- An Azure Document Intelligence `DocumentField`.  The SDK model always
declares every attribute, so the Python `hasattr` probes in the source are
always true and only the `is not None` tests discriminate; each attribute
is therefore an `Option`.  `value_array` and `value_object` make the type
a nested inductive (items of the `Items` field are themselves fields). -/
inductive DocumentField where
  | mk
      (value_string : Option String)
      (value_number : Option ℚ)
      (value_date : Option DateV)
      (value_time : Option TimeV)
      (value_currency : Option CurrencyV)
      (value : Option Scalar)
      (confidence : Option ℚ)
      (value_array : Option (List DocumentField))
      (value_object : Option (List (String × DocumentField)))

namespace DocumentField

def value_string : DocumentField → Option String
  | mk v _ _ _ _ _ _ _ _ => v

def value_number : DocumentField → Option ℚ
  | mk _ v _ _ _ _ _ _ _ => v

def value_date : DocumentField → Option DateV
  | mk _ _ v _ _ _ _ _ _ => v

def value_time : DocumentField → Option TimeV
  | mk _ _ _ v _ _ _ _ _ => v

def value_currency : DocumentField → Option CurrencyV
  | mk _ _ _ _ v _ _ _ _ => v

def value : DocumentField → Option Scalar
  | mk _ _ _ _ _ v _ _ _ => v

def confidence : DocumentField → Option ℚ
  | mk _ _ _ _ _ _ v _ _ => v

def value_array : DocumentField → Option (List DocumentField)
  | mk _ _ _ _ _ _ _ v _ => v

def value_object : DocumentField → Option (List (String × DocumentField))
  | mk _ _ _ _ _ _ _ _ v => v

/-- A scalar-only field (every container attribute empty). -/
def scalar (vs : Option String) (vn : Option ℚ) (vd : Option DateV)
    (vt : Option TimeV) (vc : Option CurrencyV) (v : Option Scalar)
    (conf : Option ℚ) : DocumentField :=
  mk vs vn vd vt vc v conf none none

end DocumentField

/-- Zero-pad a natural number to two digits (`strftime` field rendering). -/
def pad2 (n : Nat) : String :=
  if n < 10 then "0" ++ toString n else toString n

/-- Zero-pad a natural number to four digits (`strftime('%Y')`). -/
def pad4 (n : Nat) : String :=
  if n < 10 then "000" ++ toString n
  else if n < 100 then "00" ++ toString n
  else if n < 1000 then "0" ++ toString n
  else toString n

/-- Rendering of `value_date.strftime('%Y-%m-%d')`. -/
def renderDate (d : DateV) : String :=
  pad4 d.y ++ "-" ++ pad2 d.m ++ "-" ++ pad2 d.d

/-- Rendering of `value_time.strftime('%H:%M:%S')`. -/
def renderTime (t : TimeV) : String :=
  pad2 t.hh ++ ":" ++ pad2 t.mm ++ ":" ++ pad2 t.ss

/-- Embedding of `get_field_value` (source lines 96–115): extract a scalar
from a `DocumentField`, trying in order the string, number, date, time,
currency-amount and generic representations.  A currency value whose
`amount` is `None` falls through to the generic `value` probe, exactly as
the nested `if` without `else` does in the source. -/
def get_field_value : Option DocumentField → Option Scalar
  | none => none
  | some f =>
    match f.value_string with
    | some s => some (.s s)
    | none =>
      match f.value_number with
      | some n => some (.n n)
      | none =>
        match f.value_date with
        | some d => some (.s (renderDate d))
        | none =>
          match f.value_time with
          | some t => some (.s (renderTime t))
          | none =>
            match (do (← f.value_currency).amount : Option ℚ) with
            | some a => some (.n a)
            | none =>
              match f.value with
              | some v => some v
              | none => none

/-- Embedding of `get_field_confidence` (source lines 117–123). -/
def get_field_confidence : Option DocumentField → Option ℚ
  | none => none
  | some f => f.confidence

/-- Round-half-even on rationals, the rounding mode of Python's `round`. -/
def roundHalfEven (q : ℚ) : ℤ :=
  let f := ⌊q⌋
  let r := q - f
  if r < 1 / 2 then f
  else if 1 / 2 < r then f + 1
  else if f % 2 = 0 then f else f + 1

/-- Python `round(x, 4)`. -/
def round4 (q : ℚ) : ℚ := (roundHalfEven (q * 10000) : ℚ) / 10000

/-- Splitting a character list at every occurrence of a separator,
keeping empty chunks — the semantics of Python's `str.split` with an
explicit single-character separator. -/
def splitListOn (c : Char) : List Char → List (List Char)
  | [] => [[]]
  | x :: xs =>
    let r := splitListOn c xs
    if x = c then [] :: r
    else
      match r with
      | [] => [[x]]
      | y :: ys => (x :: y) :: ys

/-- Python `s.split('/')`. -/
def pySplitSlash (s : String) : List String :=
  (splitListOn '/' s.data).map List.asString

/-- Python `s.endswith(suffix)`. -/
def pyEndsWith (s suffix : String) : Bool :=
  suffix.data.isSuffixOf s.data

/-- Embedding of source lines 144–150: split the blob URL on `/`; the
container is segment index 3 (an `IndexError` — fewer than four segments —
is caught and yields failure) and the object path joins the segments from
index 4 on. -/
def parseBlobUrl (blob_url : String) : Option (String × String) :=
  let url_parts := pySplitSlash blob_url
  if url_parts.length < 4 then none
  else some (url_parts.getD 3 "", String.intercalate "/" (url_parts.drop 4))

/-- One entry of the `extracted_items` list (`item_data` in the source).
An outer `none` means the key was never put into the dictionary; an inner
`none` means the key is present with value `None` (JSON `null`). -/
structure ItemData where
  description : Option (Option Scalar) := none
  quantity : Option (Option Scalar) := none
  totalPrice : Option (Option Scalar) := none
  unitPrice : Option (Option Scalar) := none
  deriving DecidableEq

/-- Python truthiness of `item_data`: the dictionary is non-empty iff at
least one of its four possible keys was set. -/
def ItemData.nonempty (d : ItemData) : Bool :=
  d.description.isSome || d.quantity.isSome || d.totalPrice.isSome ||
    d.unitPrice.isSome

/-- The `full_receipt_data` dictionary.  As in `ItemData`, the outer
`Option` is key presence and the inner value is the stored JSON value
(`none` = `null`). -/
structure ReceiptData where
  fechaTransaccion : Option (Option Scalar) := none
  montoTotal : Option (Option Scalar) := none
  items : Option (List ItemData) := none
  nombreComercio : Option (Option Scalar) := none
  rifComercio : Option (Option Scalar) := none
  facturaNumero : Option (Option Scalar) := none
  nombreRazon : Option (Option Scalar) := none
  rifCI : Option (Option Scalar) := none
  montoExento : Option (Option Scalar) := none
  montoIVA : Option (Option Scalar) := none
  baseImponible : Option (Option Scalar) := none
  itemsConfidenceScore : Option (Option ℚ) := none
  deriving DecidableEq

/-- One document of the analysis result (`doc.fields` is a dictionary of
named `DocumentField`s, modelled as an association list). -/
structure Doc where
  fields : List (String × DocumentField)

/-- Result of `poller.result()`: the analysis result, carrying its documents. -/
structure AnalyzeResult where
  documents : List Doc

/-- Processing of one element of `Items.value_array` (source lines
241–271): if the element has a truthy `value_object`, each of the four
named sub-fields that is present is copied (via `get_field_value`) into
`item_data` and its confidence, when not `None`, is appended; the item is
kept only if `item_data` ended up non-empty.  Returns the item (or `none`
when skipped or empty) and the confidences it contributed, in the order
they were appended. -/
def processItem (item : DocumentField) : Option ItemData × List ℚ :=
  match item.value_object with
  | some (p :: rest) =>
    let obj := p :: rest
    let descF := obj.lookup "Description"
    let qtyF := obj.lookup "Quantity"
    let totF := obj.lookup "TotalPrice"
    let unitF := obj.lookup "UnitPrice"
    let item_data : ItemData :=
      { description := descF.map (fun f => get_field_value (some f))
        quantity := qtyF.map (fun f => get_field_value (some f))
        totalPrice := totF.map (fun f => get_field_value (some f))
        unitPrice := unitF.map (fun f => get_field_value (some f)) }
    let confs : List ℚ :=
      (descF.bind (fun f => get_field_confidence (some f))).toList ++
      (qtyF.bind (fun f => get_field_confidence (some f))).toList ++
      (totF.bind (fun f => get_field_confidence (some f))).toList ++
      (unitF.bind (fun f => get_field_confidence (some f))).toList
    (if item_data.nonempty then some item_data else none, confs)
  | _ => (none, [])

/-- Result of processing the first document: the `fecha_transaccion` and
`monto_total` local variables, the accumulated `full_receipt_data`, and
the accumulated `item_confidences`. -/
structure DocOutcome where
  fecha : Option Scalar := none
  monto : Option Scalar := none
  data : ReceiptData := {}
  confs : List ℚ := []
  deriving DecidableEq

/-- Update `full_receipt_data` for one optional scalar key: the key is set
only when the field was present in `doc.fields`. -/
def setIfPresent (f : Option DocumentField) : Option (Option Scalar) :=
  f.map (fun g => get_field_value (some g))

/-- Embedding of the body of the `for doc in receipt_result.documents`
loop (source lines 226–295), which runs for the first document only
(`break`).  `FechaTransaccion` and `MontoTotal` feed both the local
variables and the dictionary; `Items` is expanded per `processItem` and
the `items` key is set only when `value_array` is a truthy list; the
remaining eight fields are copied when present. -/
def processDoc (doc : Doc) : DocOutcome :=
  let fechaF := doc.fields.lookup "FechaTransaccion"
  let montoF := doc.fields.lookup "MontoTotal"
  let itemsPart : Option (List ItemData) × List ℚ :=
    match doc.fields.lookup "Items" with
    | some itemsField =>
      match itemsField.value_array with
      | some (x :: xs) =>
        let results := (x :: xs).map processItem
        (some (results.filterMap Prod.fst), (results.map Prod.snd).flatten)
      | _ => (none, [])
    | none => (none, [])
  { fecha := fechaF.bind (fun f => get_field_value (some f))
    monto := montoF.bind (fun f => get_field_value (some f))
    data :=
      { fechaTransaccion := setIfPresent fechaF
        montoTotal := setIfPresent montoF
        items := itemsPart.1
        nombreComercio := setIfPresent (doc.fields.lookup "NombreComercio")
        rifComercio := setIfPresent (doc.fields.lookup "RIF-comercio")
        facturaNumero := setIfPresent (doc.fields.lookup "FacturaNumero")
        nombreRazon := setIfPresent (doc.fields.lookup "NombreRazon")
        rifCI := setIfPresent (doc.fields.lookup "RIF-CI")
        montoExento := setIfPresent (doc.fields.lookup "MontoExento")
        montoIVA := setIfPresent (doc.fields.lookup "MontoIVA")
        baseImponible := setIfPresent (doc.fields.lookup "BaseImponible") }
    confs := itemsPart.2 }

/-- Confidence aggregation (source lines 299–304): the mean of the
collected confidences rounded to four decimals, or `None` when none were
collected. -/
def confidenceScore (confs : List ℚ) : Option ℚ :=
  match confs with
  | [] => none
  | cs => some (round4 (cs.sum / (cs.length : ℚ)))

/-- Outcome of the whole extraction mapping: the required-field local
variables together with the finished `full_receipt_data` (whose
`itemsConfidenceScore` key is always set). -/
structure ExtractOutcome where
  fecha : Option Scalar
  monto : Option Scalar
  data : ReceiptData
  confs : List ℚ
  deriving DecidableEq

/-- Embedding of the result processing (source lines 224–304): only the
first document is inspected (the loop breaks); with no documents nothing
is extracted; `itemsConfidenceScore` is set unconditionally afterwards. -/
def processResult (r : AnalyzeResult) : ExtractOutcome :=
  let base : DocOutcome :=
    match r.documents with
    | [] => {}
    | d :: _ => processDoc d
  { fecha := base.fecha
    monto := base.monto
    data := { base.data with itemsConfidenceScore := some (confidenceScore base.confs) }
    confs := base.confs }

/-! ### The MySQL username resolver -/

/-- The environment and collaborator oracle of `get_username_from_db`:
the four credential variables, the optional `DB_SSL_CA_PATH` override,
the filesystem probe, the connection attempt (as a function of the SSL
options actually passed) and the query outcome per user id. -/
structure MySqlEnv where
  host : Option String
  user : Option String
  password : Option String
  database : Option String
  dbSslCaPath : Option String
  fileExists : String → Bool
  connect : Option String → Except String Unit
  query : String → Except String (Option String)

/-- The default certificate path built from the script directory. -/
def defaultCaPath : String := "cert_combined_ca.pem"

/-- The SSL CA path the resolver will use: the environment override when
set, else the bundled default. -/
def MySqlEnv.caPath (env : MySqlEnv) : String :=
  match env.dbSslCaPath with
  | some p => p
  | none => defaultCaPath

/-- The SSL options actually passed to `pymysql.connect` (source lines
44–55): `{'ca': path}` when the CA path is truthy and the file exists;
otherwise — including the specified-but-missing-file case, which is only
logged — the empty options. -/
def sslOptionsOf (env : MySqlEnv) : Option String :=
  if truthyStr env.caPath && env.fileExists env.caPath then some env.caPath else none

/-- Source lines 57–94 given the chosen SSL options: connect, query,
fetch; every raised error is caught and yields `None`, as does an empty
query result. -/
def usernameAfterConnect (env : MySqlEnv) (user_id : String)
    (ssl_options : Option String) : Option String :=
  match env.connect ssl_options with
  | .error _ => none
  | .ok _ =>
    match env.query user_id with
    | .error _ => none
    | .ok none => none
    | .ok (some u) => some u

/-- Embedding of `get_username_from_db` (source lines 17–94).  Missing or
empty credentials return `None`; otherwise the connection is attempted
with the SSL options of `sslOptionsOf` and every later failure mode
degrades to `None`. -/
def get_username_from_db (env : MySqlEnv) (user_id : String) : Option String :=
  if !(truthyOpt env.host && truthyOpt env.user && truthyOpt env.password &&
      truthyOpt env.database) then
    none
  else
    usernameAfterConnect env user_id (sslOptionsOf env)

/-! ### The event handler `func701`

Data-independent `logging` calls inside the pure field mapping (the
per-field "not found" warnings of lines 226–297) are not tracked; the log
trace records the entries of the control-flow branches of the handler and
of the extraction phase, each with its level and whether it was emitted
with `exc_info=True`. -/

/-- Blob contents. -/
abbrev Bytes := List Nat

inductive LogLevel where
  | info
  | warning
  | error
  deriving DecidableEq

/-- One log line: its level, whether it carried `exc_info=True` (the full
traceback), and a tag identifying the call site. -/
structure LogEntry where
  level : LogLevel
  excInfo : Bool := false
  tag : String
  deriving DecidableEq

/-- The document inserted into Cosmos DB (source lines 330–338):
`full_receipt_data` is merged into the fixed header fields. -/
structure CosmosDoc where
  id : String
  userId : String
  id_usuario : String
  username : Option String
  directorio : String
  blobURL : String
  data : ReceiptData
  deriving DecidableEq

/-- The incoming Event Grid event: its type string and the two data keys
the handler reads (`event.get_json().get(...)`). -/
structure EventGridEvent where
  event_type : String
  validationCode : Option String
  url : Option String

/-- The environment and collaborator oracle of one handler invocation. -/
structure World where
  mysql : MySqlEnv
  di_endpoint : Option String
  di_key : Option String
  azureWebJobsStorage : Option String
  downloadBlob : String → String → Except String Bytes
  normalizeImage : Bytes → Except String Bytes
  analyze : Bytes → Except String AnalyzeResult
  cosmos_endpoint : Option String
  cosmos_key : Option String
  cosmos_database : Option String
  cosmos_container : Option String
  createItem : CosmosDoc → Except String Unit
  freshUuid : String

/-- What the handler returned: an HTTP response (validation branch) or a
plain `return`. -/
inductive Ret where
  | http (body : String) (status : Nat)
  | unitReturn
  deriving DecidableEq

/-- Observable outcome of one invocation: the returned value, how many
times each external collaborator was invoked, the documents successfully
persisted, and the log trace.  Every branch of the source handler catches
its exceptions, so no constructor for an escaped exception is needed. -/
structure RunResult where
  ret : Ret
  resolverCalls : Nat := 0
  fetchCalls : Nat := 0
  analyzeCalls : Nat := 0
  writeCalls : Nat := 0
  written : List CosmosDoc := []
  log : List LogEntry := []
  deriving DecidableEq

def jsonOptString : Option String → String
  | some s => "\"" ++ s ++ "\""
  | none => "null"

/-- Body of `json.dumps` applied to the validation-response dictionary. -/
def validationBody (c : Option String) : String :=
  "\x7b\"validationResponse\": " ++ jsonOptString c ++ "\x7d"

/-- Outcome of the guarded Document Intelligence block (source lines
189–304): collaborator call counts, the extraction outcome (`none` when
an exception was caught), and the log entries emitted inside the block. -/
structure DIPhaseResult where
  fetchCalls : Nat
  analyzeCalls : Nat
  outcome : Option ExtractOutcome
  log : List LogEntry

/-- The `try` block of lines 189–304: read the storage connection string
(a missing key raises), download the blob, best-effort normalize the
image (failure falls back to the original bytes with a warning), run the
analysis, and map the result.  Any raised step yields `outcome = none`
(the caught exception). -/
def runDIPhase (w : World) (container_name blob_path : String) : DIPhaseResult :=
  match w.azureWebJobsStorage with
  | none => ⟨0, 0, none, []⟩
  | some _ =>
    match w.downloadBlob container_name blob_path with
    | .error _ => ⟨1, 0, none, []⟩
    | .ok content =>
      let log0 : List LogEntry := [⟨.info, false, "original_image_size"⟩]
      let step : Bytes × List LogEntry :=
        match w.normalizeImage content with
        | .ok optimized => (optimized, log0 ++ [⟨.info, false, "optimized_image_size"⟩])
        | .error _ => (content, log0 ++ [⟨.warning, false, "image_preprocess_failed"⟩])
      match w.analyze step.1 with
      | .error _ => ⟨1, 1, none, step.2⟩
      | .ok r => ⟨1, 1, some (processResult r), step.2⟩

/-- Composition of the persisted document (source lines 328–338). -/
def composeDoc (w : World) (user_id random_subdirectory blob_url : String)
    (username : Option String) (data : ReceiptData) : CosmosDoc :=
  { id := w.freshUuid
    userId := user_id
    id_usuario := user_id
    username := username
    directorio := random_subdirectory
    blobURL := blob_url
    data := data }

/-- Source lines 156–168: owner id and random subdirectory are the first
two segments of the object path, which must have at least 3 segments. -/
def parseOwner (blob_path : String) : Option (String × String) :=
  let parts := pySplitSlash blob_path
  if parts.length < 3 then none
  else some (parts.getD 0 "", parts.getD 1 "")

/-- Source lines 170–348, after the owner id and subdirectory have been
extracted: resolve the username, check the Document Intelligence
configuration, run the guarded extraction block, enforce the
required-field invariant, check the Cosmos configuration, and insert the
composed document. -/
def afterOwner (w : World) (blob_url container_name blob_path user_id
    random_subdirectory : String) (log2 : List LogEntry) : RunResult :=
  let username := get_username_from_db w.mysql user_id
  let log3 := log2 ++
    (if username.isNone then [⟨.warning, false, "proceeding_without_username"⟩] else [])
  if !(truthyOpt w.di_endpoint && truthyOpt w.di_key) then
    { ret := .unitReturn, resolverCalls := 1
      log := log3 ++ [⟨.error, false, "missing_di_config"⟩] }
  else
    let di := runDIPhase w container_name blob_path
    match di.outcome with
    | none =>
      { ret := .unitReturn, resolverCalls := 1
        fetchCalls := di.fetchCalls, analyzeCalls := di.analyzeCalls
        log := log3 ++ di.log ++ [⟨.error, true, "di_processing_error"⟩] }
    | some ext =>
      if ext.fecha.isNone || ext.monto.isNone then
        { ret := .unitReturn, resolverCalls := 1
          fetchCalls := di.fetchCalls, analyzeCalls := di.analyzeCalls
          log := log3 ++ di.log ++
            [⟨.warning, false, "required_data_missing_not_saved"⟩] }
      else if !(truthyOpt w.cosmos_endpoint && truthyOpt w.cosmos_key &&
          truthyOpt w.cosmos_database && truthyOpt w.cosmos_container) then
        { ret := .unitReturn, resolverCalls := 1
          fetchCalls := di.fetchCalls, analyzeCalls := di.analyzeCalls
          log := log3 ++ di.log ++ [⟨.error, false, "missing_cosmos_config"⟩] }
      else
        let doc := composeDoc w user_id random_subdirectory blob_url username ext.data
        match w.createItem doc with
        | .ok _ =>
          { ret := .unitReturn, resolverCalls := 1
            fetchCalls := di.fetchCalls, analyzeCalls := di.analyzeCalls
            writeCalls := 1, written := [doc]
            log := log3 ++ di.log ++
              [⟨.info, false, "saved_to_cosmos"⟩,
               ⟨.info, false, "document_saved"⟩,
               ⟨.info, false, "function_finished"⟩] }
        | .error _ =>
          { ret := .unitReturn, resolverCalls := 1
            fetchCalls := di.fetchCalls, analyzeCalls := di.analyzeCalls
            writeCalls := 1, written := []
            log := log3 ++ di.log ++
              [⟨.error, true, "cosmos_error"⟩,
               ⟨.info, false, "function_finished"⟩] }

/-- Source lines 136–348: the `Microsoft.Storage.BlobCreated` branch. -/
def blobCreatedBranch (w : World) (urlOpt : Option String)
    (log0 : List LogEntry) : RunResult :=
  if !(truthyOpt urlOpt) then
    { ret := .unitReturn, log := log0 ++ [⟨.error, false, "blob_url_missing"⟩] }
  else
    let blob_url := urlOpt.getD ""
    let log1 := log0 ++ [⟨.info, false, "processing_blob_url"⟩]
    match parseBlobUrl blob_url with
    | none =>
      { ret := .unitReturn, log := log1 ++ [⟨.error, false, "url_parse_index_error"⟩] }
    | some (container_name, blob_path) =>
      if pyEndsWith blob_path "/.placeholder" then
        { ret := .unitReturn, log := log1 ++ [⟨.info, false, "ignoring_placeholder"⟩] }
      else
        match parseOwner blob_path with
        | none =>
          { ret := .unitReturn, log := log1 ++ [⟨.error, false, "path_too_short"⟩] }
        | some (user_id, random_subdirectory) =>
          afterOwner w blob_url container_name blob_path user_id random_subdirectory
            (log1 ++ [⟨.info, false, "processing_blob_for_user"⟩])

/-- Embedding of the handler `func701` (source lines 126–348). -/
def func701 (event : EventGridEvent) (w : World) : RunResult :=
  let log0 : List LogEntry := [⟨.info, false, "function_started"⟩]
  if event.event_type = "Microsoft.EventGrid.SubscriptionValidationEvent" then
    { ret := .http (validationBody event.validationCode) 200
      log := log0 ++ [⟨.info, false, "got_subscription_validation"⟩] }
  else if event.event_type = "Microsoft.Storage.BlobCreated" then
    blobCreatedBranch w event.url log0
  else
    { ret := .unitReturn, log := log0 }

/-! ### Concrete instances used in the theorems and witnesses -/

def exUrl : String :=
  "https://acct.blob.core.windows.net/container/user123/subdirABC/receipt.jpg"

def exObjectPath : String := "user123/subdirABC/receipt.jpg"

/-- A MySQL environment with no credentials configured at all. -/
def mysqlDown : MySqlEnv :=
  { host := none, user := none, password := none, database := none
    dbSslCaPath := none, fileExists := fun _ => false
    connect := fun _ => .error "unreachable"
    query := fun _ => .error "unreachable" }

/-- A field carrying only a string value and a confidence. -/
def strField (s : String) (conf : Option ℚ) : DocumentField :=
  DocumentField.scalar (some s) none none none none none conf

/-- A field carrying only a number value and a confidence. -/
def numField (q : ℚ) (conf : Option ℚ) : DocumentField :=
  DocumentField.scalar none (some q) none none none none conf

/-- An analysis document carrying both required fields. -/
def happyDoc : Doc :=
  { fields := [("FechaTransaccion", strField "2024-01-02" (some (97/100))),
               ("MontoTotal", numField 100 (some (99/100)))] }

/-- A world in which every collaborator succeeds except the MySQL store,
which has no credentials configured (so the resolver degrades to
`none`). -/
def happyWorld : World :=
  { mysql := mysqlDown
    di_endpoint := some "https://di.example", di_key := some "dikey"
    azureWebJobsStorage := some "storageconn"
    downloadBlob := fun _ _ => .ok [1, 2, 3]
    normalizeImage := fun b => .ok b
    analyze := fun _ => .ok { documents := [happyDoc] }
    cosmos_endpoint := some "https://cosmos.example", cosmos_key := some "ckey"
    cosmos_database := some "db", cosmos_container := some "recibos"
    createItem := fun _ => .ok ()
    freshUuid := "3f2c6c44-0a61-4d6e-9d30-5d3f1c2a7b90" }

/-- A `BlobCreated` event for the example URL. -/
def happyEvent : EventGridEvent :=
  { event_type := "Microsoft.Storage.BlobCreated", validationCode := none
    url := some exUrl }

/-- A field populated simultaneously with a string and a number value. -/
def bothField : DocumentField :=
  DocumentField.scalar (some "ambos") (some 42) none none none none none

/-- A structured line item whose three extracted sub-fields carry the
confidences 0.9, 0.8 and 0.95. -/
def exItem1 : DocumentField :=
  DocumentField.mk none none none none none none none none
    (some [("Description", strField "cafe" (some (9/10))),
           ("Quantity", numField 2 (some (8/10))),
           ("TotalPrice", numField 10 (some (95/100)))])

/-- An analysis document with both required fields and an `Items` array
containing `exItem1`. -/
def exItemsDoc : Doc :=
  { fields := [("FechaTransaccion", strField "2024-01-02" none),
               ("MontoTotal", numField 100 none),
               ("Items", DocumentField.mk none none none none none none none
                  (some [exItem1]) none)] }

/-- A world like `happyWorld` whose analysis result lacks `MontoTotal`. -/
def montoMissingWorld : World :=
  { happyWorld with
    analyze := fun _ => .ok { documents :=
      [{ fields := [("FechaTransaccion", strField "2024-01-02" (some (97/100))),
                    ("NombreComercio", strField "Bodega" none)] }] } }

/-- The claim's inclusion criterion for one element of the `Items` array:
the element has a truthy structured object and at least one of the four
named sub-fields is present in it. -/
def hasExtractedSub (i : DocumentField) : Bool :=
  match i.value_object with
  | some (p :: rest) =>
    ((p :: rest).lookup "Description").isSome ||
    ((p :: rest).lookup "Quantity").isSome ||
    ((p :: rest).lookup "TotalPrice").isSome ||
    ((p :: rest).lookup "UnitPrice").isSome
  | _ => false

/-- A document persisted by the happy run. -/
def happyComposedDoc : CosmosDoc :=
  composeDoc happyWorld "user123" "subdirABC" exUrl none
    (processResult { documents := [happyDoc] }).data

/-- A resolver environment with full credentials, a specified CA path
whose file is missing, a reachable server and a known user. -/
def mysqlCertMissing : MySqlEnv :=
  { host := some "db.example", user := some "app", password := some "pw"
    database := some "usersdb"
    dbSslCaPath := some "/config/absent-ca.pem"
    fileExists := fun _ => false
    connect := fun _ => .ok ()
    query := fun uid => if uid = "user123" then .ok (some "alice") else .ok none }

/-- A world like `happyWorld` whose blob fetch always raises. -/
def fetchFailWorld : World :=
  { happyWorld with downloadBlob := fun _ _ => .error "server busy" }

/-! ### Claims -/

/-- C2: Blob path parsing.  For the example URL the parser yields
container `"container"` and object path `"user123/subdirABC/receipt.jpg"`,
whose first two segments are the owner `"user123"` and the subdirectory
`"subdirABC"`; in general the container is segment index 3 of the URL
split on `/`, the object path joins the segments from index 4 on, and
the owner and subdirectory are the first and second object-path
segments. -/
theorem c2_blob_path_parsing :
    (parseBlobUrl exUrl = some ("container", exObjectPath) ∧
      parseOwner exObjectPath = some ("user123", "subdirABC")) ∧
    (∀ url c p, parseBlobUrl url = some (c, p) →
      c = (pySplitSlash url).getD 3 "" ∧
      p = String.intercalate "/" ((pySplitSlash url).drop 4)) ∧
    (∀ path o s, parseOwner path = some (o, s) →
      o = (pySplitSlash path).getD 0 "" ∧ s = (pySplitSlash path).getD 1 "") := by
  refine ⟨⟨by decide, by decide⟩, ?_, ?_⟩
  · intro url c p h
    unfold parseBlobUrl at h
    by_cases hl : (pySplitSlash url).length < 4
    · simp [hl] at h
    · simp only [hl, if_false] at h
      have := h.symm
      injection this with h2
      exact ⟨congrArg Prod.fst h2, congrArg Prod.snd h2⟩
  · intro path o s h
    unfold parseOwner at h
    by_cases hl : (pySplitSlash path).length < 3
    · simp [hl] at h
    · simp only [hl, if_false] at h
      have := h.symm
      injection this with h2
      exact ⟨congrArg Prod.fst h2, congrArg Prod.snd h2⟩

/-- Witness for C2 at the example URL. -/
theorem c2_blob_path_parsing_witness :
    "container" = (pySplitSlash exUrl).getD 3 "" ∧
    exObjectPath = String.intercalate "/" ((pySplitSlash exUrl).drop 4) :=
  c2_blob_path_parsing.2.1 exUrl "container" exObjectPath (by decide)

/-- C4: Scalar extraction fallback order of `get_field_value`: string,
then number, then date rendered `YYYY-MM-DD`, then time rendered
`HH:MM:SS`, then the currency amount, then the generic value, else
`null`; in particular a field with both a string and a number value
yields the string. -/
theorem c4_scalar_fallback_order (f : DocumentField) :
    (∀ s, f.value_string = some s → get_field_value (some f) = some (.s s)) ∧
    (f.value_string = none → ∀ n, f.value_number = some n →
      get_field_value (some f) = some (.n n)) ∧
    (f.value_string = none → f.value_number = none → ∀ d, f.value_date = some d →
      get_field_value (some f) = some (.s (renderDate d))) ∧
    (f.value_string = none → f.value_number = none → f.value_date = none →
      ∀ t, f.value_time = some t → get_field_value (some f) = some (.s (renderTime t))) ∧
    (f.value_string = none → f.value_number = none → f.value_date = none →
      f.value_time = none → ∀ c a, f.value_currency = some c → c.amount = some a →
      get_field_value (some f) = some (.n a)) ∧
    (f.value_string = none → f.value_number = none → f.value_date = none →
      f.value_time = none → (∀ c, f.value_currency = some c → c.amount = none) →
      ∀ v, f.value = some v → get_field_value (some f) = some v) ∧
    (f.value_string = none → f.value_number = none → f.value_date = none →
      f.value_time = none → (∀ c, f.value_currency = some c → c.amount = none) →
      f.value = none → get_field_value (some f) = none) ∧
    get_field_value none = none := by
  obtain ⟨vs, vn, vd, vt, vc, v, conf, va, vo⟩ := f
  refine ⟨?_, ?_, ?_, ?_, ?_, ?_, ?_, rfl⟩
  · intro s hs
    cases hs
    rfl
  · intro hs n hn
    cases hs; cases hn
    rfl
  · intro hs hn d hd
    cases hs; cases hn; cases hd
    rfl
  · intro hs hn hd t ht
    cases hs; cases hn; cases hd; cases ht
    rfl
  · intro hs hn hd ht c a hc ha
    cases hs; cases hn; cases hd; cases ht; cases hc
    simp [get_field_value, ha, DocumentField.value_currency, DocumentField.value_string,
      DocumentField.value_number, DocumentField.value_date, DocumentField.value_time]
  · intro hs hn hd ht hc v hv
    cases hs; cases hn; cases hd; cases ht; cases hv
    cases vc with
    | none => rfl
    | some c =>
      have := hc c rfl
      simp [get_field_value, this, DocumentField.value_currency, DocumentField.value_string,
        DocumentField.value_number, DocumentField.value_date, DocumentField.value_time,
        DocumentField.value]
  · intro hs hn hd ht hc hv
    cases hs; cases hn; cases hd; cases ht; cases hv
    cases vc with
    | none => rfl
    | some c =>
      have := hc c rfl
      simp [get_field_value, this, DocumentField.value_currency, DocumentField.value_string,
        DocumentField.value_number, DocumentField.value_date, DocumentField.value_time,
        DocumentField.value]

/-- Witness for C4: a field with both a string and a number value yields
the string. -/
theorem c4_scalar_fallback_order_witness :
    get_field_value (some bothField) = some (.s "ambos") :=
  (c4_scalar_fallback_order bothField).1 "ambos" rfl

/-- The `itemsConfidenceScore` key of the mapped data is always present
and holds the aggregate of the collected confidences. -/
theorem processResult_score (r : AnalyzeResult) :
    (processResult r).data.itemsConfidenceScore =
      some (confidenceScore (processResult r).confs) := by
  obtain ⟨docs⟩ := r
  cases docs <;> rfl

/-- C3: Confidence aggregation: `itemsConfidenceScore` is the arithmetic
mean of the collected per-sub-field confidences rounded to 4 decimals
(for `[0.9, 0.8, 0.95]` it is `0.8833`) and is `null` exactly when no
confidences were collected. -/
theorem c3_confidence_aggregation :
    (∀ r : AnalyzeResult,
      ((processResult r).confs ≠ [] →
        (processResult r).data.itemsConfidenceScore =
          some (some (round4
            ((processResult r).confs.sum / ((processResult r).confs.length : ℚ))))) ∧
      ((processResult r).data.itemsConfidenceScore = some none ↔
        (processResult r).confs = [])) ∧
    round4 ((9/10 + 8/10 + 95/100) / 3) = 8833 / 10000 ∧
    (processResult { documents := [exItemsDoc] }).confs = [9/10, 8/10, 95/100] ∧
    (processResult { documents := [exItemsDoc] }).data.itemsConfidenceScore =
      some (some (8833 / 10000)) := by
  have hr : round4 ((9/10 + 8/10 + 95/100) / 3) = 8833 / 10000 := by
    norm_num [round4, roundHalfEven]
  have hconfs : (processResult { documents := [exItemsDoc] }).confs =
      [9/10, 8/10, 95/100] := rfl
  refine ⟨?_, hr, hconfs, ?_⟩
  case refine_2 =>
    rw [processResult_score, hconfs]
    simp only [confidenceScore, List.sum_cons, List.sum_nil, List.length_cons,
      List.length_nil]
    norm_num [round4, roundHalfEven]
  intro r
  rw [processResult_score r]
  generalize (processResult r).confs = cs
  constructor
  · intro hne
    cases cs with
    | nil => exact absurd rfl hne
    | cons c rest => rfl
  · cases cs with
    | nil => simp [confidenceScore]
    | cons c rest => simp [confidenceScore]

/-- Witness for C3 at a concrete result with three collected
confidences. -/
theorem c3_confidence_aggregation_witness :
    (processResult { documents := [exItemsDoc] }).data.itemsConfidenceScore =
      some (some (round4
        ((processResult { documents := [exItemsDoc] }).confs.sum /
          (((processResult { documents := [exItemsDoc] }).confs.length : ℚ))))) :=
  (c3_confidence_aggregation.1 { documents := [exItemsDoc] }).1 (by decide)

/-- A URL that parses has at least four segments, so it is not empty. -/
theorem blob_url_ne_empty {blob_url : String} {v : String × String}
    (hparse : parseBlobUrl blob_url = some v) : blob_url ≠ "" := by
  intro h
  subst h
  have h0 : parseBlobUrl "" = none := rfl
  rw [h0] at hparse
  cases hparse

/-- On a `BlobCreated` event with a non-empty URL the handler runs the
creation branch. -/
theorem func701_blobCreated (event : EventGridEvent) (w : World) (blob_url : String)
    (htype : event.event_type = "Microsoft.Storage.BlobCreated")
    (hurl : event.url = some blob_url) :
    func701 event w =
      blobCreatedBranch w (some blob_url) [⟨.info, false, "function_started"⟩] := by
  unfold func701
  rw [htype, if_neg (by decide), if_pos rfl, hurl]

/-- With a parsed URL, the creation branch reduces past the URL checks. -/
theorem blobCreatedBranch_parsed (w : World) (l0 : List LogEntry)
    (blob_url container blob_path : String)
    (hparse : parseBlobUrl blob_url = some (container, blob_path)) :
    blobCreatedBranch w (some blob_url) l0 =
      (if pyEndsWith blob_path "/.placeholder" = true then
        { ret := .unitReturn
          log := l0 ++ [⟨.info, false, "processing_blob_url"⟩] ++
            [⟨.info, false, "ignoring_placeholder"⟩] }
      else
        match parseOwner blob_path with
        | none =>
          { ret := .unitReturn
            log := l0 ++ [⟨.info, false, "processing_blob_url"⟩] ++
              [⟨.error, false, "path_too_short"⟩] }
        | some (user_id, random_subdirectory) =>
          afterOwner w blob_url container blob_path user_id random_subdirectory
            (l0 ++ [⟨.info, false, "processing_blob_url"⟩] ++
              [⟨.info, false, "processing_blob_for_user"⟩])) := by
  have htr : truthyOpt (some blob_url) = true := by
    simp [truthyOpt, blob_url_ne_empty hparse]
  unfold blobCreatedBranch
  rw [htr]
  rw [if_neg (by decide)]
  simp only [Option.getD_some, hparse]

/-- C6: Placeholder skip: a `BlobCreated` event whose parsed object path
ends in `/.placeholder` is a no-op: the handler returns normally with no
resolver, fetch, extraction or write invocation and nothing written. -/
theorem c6_placeholder_skip (event : EventGridEvent) (w : World)
    (blob_url container blob_path : String)
    (htype : event.event_type = "Microsoft.Storage.BlobCreated")
    (hurl : event.url = some blob_url)
    (hparse : parseBlobUrl blob_url = some (container, blob_path))
    (hph : pyEndsWith blob_path "/.placeholder" = true) :
    func701 event w =
      { ret := .unitReturn
        log := [⟨.info, false, "function_started"⟩,
                ⟨.info, false, "processing_blob_url"⟩,
                ⟨.info, false, "ignoring_placeholder"⟩] } := by
  rw [func701_blobCreated event w blob_url htype hurl,
    blobCreatedBranch_parsed w _ blob_url container blob_path hparse, if_pos hph]
  rfl

/-- Witness for C6: a concrete placeholder event. -/
theorem c6_placeholder_skip_witness :
    func701
      { event_type := "Microsoft.Storage.BlobCreated", validationCode := none
        url := some "https://acct.blob.core.windows.net/container/user123/subdirABC/.placeholder" }
      happyWorld =
      { ret := .unitReturn
        log := [⟨.info, false, "function_started"⟩,
                ⟨.info, false, "processing_blob_url"⟩,
                ⟨.info, false, "ignoring_placeholder"⟩] } :=
  c6_placeholder_skip _ happyWorld
    "https://acct.blob.core.windows.net/container/user123/subdirABC/.placeholder"
    "container" "user123/subdirABC/.placeholder" rfl rfl (by decide) (by decide)

/-- C7: Malformed-path rejection: a `BlobCreated` event whose object
path has fewer than 3 slash-separated segments is rejected before any
collaborator is invoked and nothing is written. -/
theorem c7_malformed_path_rejection (event : EventGridEvent) (w : World)
    (blob_url container blob_path : String)
    (htype : event.event_type = "Microsoft.Storage.BlobCreated")
    (hurl : event.url = some blob_url)
    (hparse : parseBlobUrl blob_url = some (container, blob_path))
    (hshort : (pySplitSlash blob_path).length < 3) :
    (func701 event w).resolverCalls = 0 ∧ (func701 event w).fetchCalls = 0 ∧
    (func701 event w).analyzeCalls = 0 ∧ (func701 event w).writeCalls = 0 ∧
    (func701 event w).written = [] ∧ (func701 event w).ret = .unitReturn := by
  rw [func701_blobCreated event w blob_url htype hurl,
    blobCreatedBranch_parsed w _ blob_url container blob_path hparse]
  by_cases hph : pyEndsWith blob_path "/.placeholder" = true
  · rw [if_pos hph]
    exact ⟨rfl, rfl, rfl, rfl, rfl, rfl⟩
  · rw [if_neg hph]
    have hown : parseOwner blob_path = none := by
      unfold parseOwner
      rw [if_pos hshort]
    rw [hown]
    exact ⟨rfl, rfl, rfl, rfl, rfl, rfl⟩

/-- C1: Required-field gating: if the extraction outcome has a null
`fechaTransaccion` or a null `montoTotal` (including absence), the run
terminates without writing any document, whatever else was extracted. -/
theorem c1_required_field_gating (event : EventGridEvent) (w : World)
    (blob_url container blob_path : String) (ext : ExtractOutcome)
    (htype : event.event_type = "Microsoft.Storage.BlobCreated")
    (hurl : event.url = some blob_url)
    (hparse : parseBlobUrl blob_url = some (container, blob_path))
    (hout : (runDIPhase w container blob_path).outcome = some ext)
    (hnull : ext.fecha = none ∨ ext.monto = none) :
    (func701 event w).written = [] ∧ (func701 event w).writeCalls = 0 := by
  rw [func701_blobCreated event w blob_url htype hurl,
    blobCreatedBranch_parsed w _ blob_url container blob_path hparse]
  by_cases hph : pyEndsWith blob_path "/.placeholder" = true
  · rw [if_pos hph]
    exact ⟨rfl, rfl⟩
  · rw [if_neg hph]
    rcases hown : parseOwner blob_path with _ | ⟨user_id, sub⟩
    · exact ⟨rfl, rfl⟩
    · dsimp only
      unfold afterOwner
      dsimp only
      by_cases hdi : (!(truthyOpt w.di_endpoint && truthyOpt w.di_key)) = true
      · rw [if_pos hdi]
        exact ⟨rfl, rfl⟩
      · rw [if_neg hdi]
        simp only [hout]
        have hg : (ext.fecha.isNone || ext.monto.isNone) = true := by
          rcases hnull with h | h <;> simp [h]
        rw [if_pos hg]
        exact ⟨rfl, rfl⟩

/-- Witness for C1: extraction succeeds but `MontoTotal` is absent, so
nothing is written. -/
theorem c1_required_field_gating_witness :
    (func701 happyEvent montoMissingWorld).written = [] :=
  (c1_required_field_gating happyEvent montoMissingWorld exUrl "container"
    exObjectPath
    (processResult { documents :=
      [{ fields := [("FechaTransaccion", strField "2024-01-02" (some (97/100))),
                    ("NombreComercio", strField "Bodega" none)] }] })
    rfl rfl (by decide) rfl (Or.inr rfl)).1

/-- Witness for C7: a one-segment object path. -/
theorem c7_malformed_path_rejection_witness :
    (func701
      { event_type := "Microsoft.Storage.BlobCreated", validationCode := none
        url := some "https://acct.blob.core.windows.net/container/onlyonefile.jpg" }
      happyWorld).written = [] :=
  (c7_malformed_path_rejection _ happyWorld
    "https://acct.blob.core.windows.net/container/onlyonefile.jpg"
    "container" "onlyonefile.jpg" rfl rfl (by decide) (by decide)).2.2.2.2.1

/-- An element of the `Items` array yields a kept `item_data` exactly when
one of its four named sub-fields was extracted. -/
theorem processItem_isSome (i : DocumentField) :
    ((processItem i).1).isSome = hasExtractedSub i := by
  obtain ⟨vs, vn, vd, vt, vc, v, conf, va, vo⟩ := i
  match vo with
  | none => rfl
  | some [] => rfl
  | some (p :: rest) =>
    cases hD : (p :: rest).lookup "Description" <;>
      cases hQ : (p :: rest).lookup "Quantity" <;>
        cases hT : (p :: rest).lookup "TotalPrice" <;>
          cases hU : (p :: rest).lookup "UnitPrice" <;>
            simp [processItem, hasExtractedSub, ItemData.nonempty,
              DocumentField.value_object, hD, hQ, hT, hU]

/-- C9: Line-item inclusion: with a truthy `Items` array, the output
`items` list is the in-order `filterMap` of the array through the item
processor, and an element produces an entry iff at least one of its
`Description`, `Quantity`, `TotalPrice`, `UnitPrice` sub-fields was
extracted. -/
theorem c9_line_item_inclusion (doc : Doc) (itemsF : DocumentField)
    (arr : List DocumentField)
    (hf : doc.fields.lookup "Items" = some itemsF)
    (ha : itemsF.value_array = some arr) (hne : arr ≠ []) :
    (processDoc doc).data.items =
      some (arr.filterMap (fun i => (processItem i).1)) ∧
    ∀ i : DocumentField, ((processItem i).1).isSome = hasExtractedSub i := by
  refine ⟨?_, processItem_isSome⟩
  unfold processDoc
  simp only [hf]
  cases arr with
  | nil => exact absurd rfl hne
  | cons x xs =>
    simp only [ha]
    show some ((List.map processItem (x :: xs)).filterMap Prod.fst) = _
    rw [List.filterMap_map]
    rfl

/-- Witness for C9 at the concrete `Items` array `[exItem1]`. -/
theorem c9_line_item_inclusion_witness :
    (processDoc exItemsDoc).data.items =
      some ([exItem1].filterMap (fun i => (processItem i).1)) :=
  (c9_line_item_inclusion exItemsDoc _ [exItem1] rfl rfl
    (List.cons_ne_nil exItem1 [])).1

/-- A successful extraction outcome is the mapping of some analysis
result. -/
theorem runDIPhase_outcome_eq (w : World) (c p : String) (ext : ExtractOutcome)
    (h : (runDIPhase w c p).outcome = some ext) :
    ∃ r : AnalyzeResult, ext = processResult r := by
  unfold runDIPhase at h
  split at h
  · cases h
  · split at h
    · cases h
    · dsimp only at h
      split at h
      · cases h
      · rename_i r heq
        exact ⟨r, (Option.some.inj h).symm⟩

/-- Every persisted document arises from the one success path: a parsed
URL and owner, a successful extraction whose required fields are
non-null, and an accepted insert, the document being the composition of
source lines 330–338. -/
theorem written_characterize (event : EventGridEvent) (w : World) (d : CosmosDoc)
    (hd : d ∈ (func701 event w).written) :
    ∃ blob_url container blob_path user_id sub ext,
      event.url = some blob_url ∧
      parseBlobUrl blob_url = some (container, blob_path) ∧
      parseOwner blob_path = some (user_id, sub) ∧
      (runDIPhase w container blob_path).outcome = some ext ∧
      ext.fecha.isSome = true ∧ ext.monto.isSome = true ∧
      d = composeDoc w user_id sub blob_url
            (get_username_from_db w.mysql user_id) ext.data := by
  unfold func701 at hd
  split at hd
  · exact absurd hd (by simp)
  · split at hd
    case isFalse => exact absurd hd (by simp)
    case isTrue htype =>
      unfold blobCreatedBranch at hd
      split at hd
      · exact absurd hd (by simp)
      · rename_i hurl
        obtain ⟨u, hu⟩ : ∃ u, event.url = some u := by
          cases hue : event.url with
          | none => rw [hue] at hurl; exact absurd rfl hurl
          | some s => exact ⟨s, rfl⟩
        rw [hu] at hd
        simp only [Option.getD_some] at hd
        split at hd
        · exact absurd hd (by simp)
        · rename_i container blob_path hparse
          split at hd
          · exact absurd hd (by simp)
          · rename_i hph
            split at hd
            · exact absurd hd (by simp)
            · rename_i user_id sub hown
              unfold afterOwner at hd
              dsimp only at hd
              split at hd
              · exact absurd hd (by simp)
              · rename_i hdi
                split at hd
                · exact absurd hd (by simp)
                · rename_i ext hout
                  split at hd
                  · exact absurd hd (by simp)
                  · rename_i hgate
                    split at hd
                    · exact absurd hd (by simp)
                    · rename_i hcos
                      split at hd
                      case h_2 => exact absurd hd (by simp)
                      case h_1 =>
                        have hfe : ext.fecha.isSome = true := by
                          cases hx : ext.fecha
                          · rw [hx] at hgate
                            simp at hgate
                          · rfl
                        have hmo : ext.monto.isSome = true := by
                          cases hx : ext.monto
                          · rw [hx] at hgate
                            simp at hgate
                          · rfl
                        refine ⟨u, container, blob_path, user_id, sub, ext,
                          hu, hparse, hown, hout, hfe, hmo, ?_⟩
                        simp only [List.mem_singleton] at hd
                        exact hd

/-- The function `roundHalfEven` returns the floor or its successor, the successor
only when the fractional part is at least one half. -/
theorem roundHalfEven_cases (q : ℚ) :
    roundHalfEven q = ⌊q⌋ ∨
      (roundHalfEven q = ⌊q⌋ + 1 ∧ 1/2 ≤ q - ⌊q⌋) := by
  unfold roundHalfEven
  by_cases h1 : q - ⌊q⌋ < 1/2
  · rw [if_pos h1]
    exact Or.inl rfl
  · rw [if_neg h1]
    by_cases h2 : 1/2 < q - ⌊q⌋
    · rw [if_pos h2]
      exact Or.inr ⟨rfl, le_of_lt h2⟩
    · rw [if_neg h2]
      by_cases h3 : ⌊q⌋ % 2 = 0
      · rw [if_pos h3]
        exact Or.inl rfl
      · rw [if_neg h3]
        exact Or.inr ⟨rfl, le_of_not_lt h1⟩

theorem roundHalfEven_nonneg {q : ℚ} (h : 0 ≤ q) : 0 ≤ roundHalfEven q := by
  have hf : 0 ≤ ⌊q⌋ := Int.floor_nonneg.mpr h
  rcases roundHalfEven_cases q with hc | ⟨hc, _⟩ <;> rw [hc] <;> omega

theorem roundHalfEven_le_of_le {q : ℚ} {b : ℤ} (hb : q ≤ (b : ℚ)) :
    roundHalfEven q ≤ b := by
  have hfb : ⌊q⌋ ≤ b := by
    calc ⌊q⌋ ≤ ⌊(b : ℚ)⌋ := Int.floor_le_floor hb
    _ = b := Int.floor_intCast b
  rcases roundHalfEven_cases q with hc | ⟨hc, hr⟩ <;> rw [hc]
  · exact hfb
  · have hlt : (⌊q⌋ : ℚ) < q := by linarith
    have : (⌊q⌋ : ℚ) < (b : ℚ) := lt_of_lt_of_le hlt hb
    have := Int.cast_lt.mp this
    omega

/-- Rounding to four decimals keeps the unit interval. -/
theorem round4_unit {q : ℚ} (h0 : 0 ≤ q) (h1 : q ≤ 1) :
    0 ≤ round4 q ∧ round4 q ≤ 1 := by
  unfold round4
  have ha : 0 ≤ q * 10000 := by positivity
  have hb : q * 10000 ≤ ((10000 : ℤ) : ℚ) := by push_cast; nlinarith
  have h2 := roundHalfEven_nonneg ha
  have h3 := roundHalfEven_le_of_le hb
  constructor
  · apply div_nonneg _ (by norm_num)
    exact_mod_cast h2
  · rw [div_le_one (by norm_num)]
    exact_mod_cast h3

/-- The mean of a non-empty list of unit-interval rationals lies in the
unit interval. -/
theorem mean_unit (cs : List ℚ) (hne : cs ≠ [])
    (hb : ∀ c ∈ cs, 0 ≤ c ∧ c ≤ 1) :
    0 ≤ cs.sum / (cs.length : ℚ) ∧ cs.sum / (cs.length : ℚ) ≤ 1 := by
  have hlen : 0 < (cs.length : ℚ) := by
    have := List.length_pos.mpr hne
    exact_mod_cast this
  have hsum0 : 0 ≤ cs.sum := List.sum_nonneg fun c hc => (hb c hc).1
  have hsum1 : cs.sum ≤ (cs.length : ℚ) := by
    have := List.sum_le_card_nsmul cs 1 fun c hc => (hb c hc).2
    simpa using this
  exact ⟨div_nonneg hsum0 (le_of_lt hlen), (div_le_one hlen).mpr hsum1⟩

/-- C10 (implicit): every persisted document has the
`itemsConfidenceScore` key — also when `Items` was absent — holding null
or the rounded mean of the collected confidences; a non-null score is in
`[0,1]` whenever every collected confidence is; and the document carries
`userId` and `id_usuario` both equal to the parsed owner identifier. -/
theorem c10_composed_document_invariants :
    (∀ (event : EventGridEvent) (w : World) (d : CosmosDoc),
      d ∈ (func701 event w).written →
      d.userId = d.id_usuario ∧
      (∃ blob_url container blob_path sub,
        event.url = some blob_url ∧
        parseBlobUrl blob_url = some (container, blob_path) ∧
        parseOwner blob_path = some (d.userId, sub)) ∧
      (∃ r : AnalyzeResult, d.data = (processResult r).data ∧
        d.data.itemsConfidenceScore =
          some (confidenceScore (processResult r).confs))) ∧
    (∀ r : AnalyzeResult,
      (∀ c ∈ (processResult r).confs, 0 ≤ c ∧ c ≤ 1) →
      ∀ q, (processResult r).data.itemsConfidenceScore = some (some q) →
        0 ≤ q ∧ q ≤ 1) := by
  constructor
  · intro event w d hd
    obtain ⟨blob_url, container, blob_path, user_id, sub, ext, hu, hparse, hown,
      hout, hfe, hmo, hcomp⟩ := written_characterize event w d hd
    obtain ⟨r, hr⟩ := runDIPhase_outcome_eq w container blob_path ext hout
    subst hr
    subst hcomp
    refine ⟨rfl, ⟨blob_url, container, blob_path, sub, hu, hparse, hown⟩,
      ⟨r, rfl, processResult_score r⟩⟩
  · intro r hb q hq
    rw [processResult_score r] at hq
    have hcs := Option.some.inj hq
    cases hc : (processResult r).confs with
    | nil => rw [hc] at hcs; cases hcs
    | cons c rest =>
      rw [hc] at hcs
      have hq4 : q = round4 ((c :: rest).sum / ((c :: rest).length : ℚ)) :=
        (Option.some.inj hcs).symm
      rw [hc] at hb
      have hm := mean_unit (c :: rest) (List.cons_ne_nil c rest) hb
      rw [hq4]
      exact round4_unit hm.1 hm.2

/-- Witness for C10 at the happy run's persisted document. -/
theorem c10_composed_document_invariants_witness :
    happyComposedDoc.userId = happyComposedDoc.id_usuario :=
  (c10_composed_document_invariants.1 happyEvent happyWorld happyComposedDoc
    (by
      have h : (func701 happyEvent happyWorld).written = [happyComposedDoc] := rfl
      rw [h]
      exact List.mem_singleton.mpr rfl)).1

/-- The handler reduces to the post-owner phase once the path checks
pass. -/
theorem func701_reach_afterOwner (event : EventGridEvent) (w : World)
    (blob_url container blob_path user_id sub : String)
    (htype : event.event_type = "Microsoft.Storage.BlobCreated")
    (hurl : event.url = some blob_url)
    (hparse : parseBlobUrl blob_url = some (container, blob_path))
    (hph : pyEndsWith blob_path "/.placeholder" = false)
    (hown : parseOwner blob_path = some (user_id, sub)) :
    func701 event w = afterOwner w blob_url container blob_path user_id sub
      [⟨.info, false, "function_started"⟩, ⟨.info, false, "processing_blob_url"⟩,
       ⟨.info, false, "processing_blob_for_user"⟩] := by
  rw [func701_blobCreated event w blob_url htype hurl,
    blobCreatedBranch_parsed w _ blob_url container blob_path hparse,
    if_neg (by simp [hph])]
  simp only [hown]
  rfl

/-- The two `isNone` gate conditions are false when both required fields
are present. -/
theorem gate_false {ext : ExtractOutcome} (hfe : ext.fecha.isSome = true)
    (hmo : ext.monto.isSome = true) :
    (ext.fecha.isNone || ext.monto.isNone) = false := by
  cases hx : ext.fecha with
  | none => rw [hx] at hfe; simp at hfe
  | some a =>
    cases hy : ext.monto with
    | none => rw [hy] at hmo; simp at hmo
    | some b => simp

/-- The post-owner phase with a successful extraction, both required
fields present, full Cosmos configuration and an accepted insert writes
exactly the composed document. -/
theorem afterOwner_ok (w : World) (blob_url container blob_path user_id sub : String)
    (l2 : List LogEntry) (ext : ExtractOutcome)
    (hdiE : truthyOpt w.di_endpoint = true) (hdiK : truthyOpt w.di_key = true)
    (hout : (runDIPhase w container blob_path).outcome = some ext)
    (hfe : ext.fecha.isSome = true) (hmo : ext.monto.isSome = true)
    (hc1 : truthyOpt w.cosmos_endpoint = true) (hc2 : truthyOpt w.cosmos_key = true)
    (hc3 : truthyOpt w.cosmos_database = true)
    (hc4 : truthyOpt w.cosmos_container = true)
    (hw : w.createItem (composeDoc w user_id sub blob_url
      (get_username_from_db w.mysql user_id) ext.data) = .ok ()) :
    (afterOwner w blob_url container blob_path user_id sub l2).written =
      [composeDoc w user_id sub blob_url
        (get_username_from_db w.mysql user_id) ext.data] ∧
    (afterOwner w blob_url container blob_path user_id sub l2).writeCalls = 1 ∧
    (afterOwner w blob_url container blob_path user_id sub l2).ret = .unitReturn := by
  unfold afterOwner
  dsimp only
  rw [if_neg (by simp [hdiE, hdiK])]
  simp only [hout]
  rw [if_neg (by simp [gate_false hfe hmo]),
    if_neg (by simp [hc1, hc2, hc3, hc4])]
  simp only [hw]
  refine ⟨?_, ?_, ?_⟩ <;> trivial

/-- The post-owner phase whose extraction block raised: normal return,
nothing written, diagnostic error logged with the traceback. -/
theorem afterOwner_extraction_raised (w : World)
    (blob_url container blob_path user_id sub : String) (l2 : List LogEntry)
    (hdiE : truthyOpt w.di_endpoint = true) (hdiK : truthyOpt w.di_key = true)
    (hout : (runDIPhase w container blob_path).outcome = none) :
    (afterOwner w blob_url container blob_path user_id sub l2).ret = .unitReturn ∧
    (afterOwner w blob_url container blob_path user_id sub l2).written = [] ∧
    (afterOwner w blob_url container blob_path user_id sub l2).writeCalls = 0 ∧
    (⟨.error, true, "di_processing_error"⟩ : LogEntry) ∈
      (afterOwner w blob_url container blob_path user_id sub l2).log := by
  unfold afterOwner
  dsimp only
  rw [if_neg (by simp [hdiE, hdiK])]
  simp only [hout]
  refine ⟨?_, ?_, ?_, ?_⟩ <;> first | trivial | simp

/-- The post-owner phase whose insert was rejected: normal return,
nothing persisted, one write attempt, diagnostic error logged. -/
theorem afterOwner_write_raised (w : World)
    (blob_url container blob_path user_id sub : String)
    (l2 : List LogEntry) (ext : ExtractOutcome) (msg : String)
    (hdiE : truthyOpt w.di_endpoint = true) (hdiK : truthyOpt w.di_key = true)
    (hout : (runDIPhase w container blob_path).outcome = some ext)
    (hfe : ext.fecha.isSome = true) (hmo : ext.monto.isSome = true)
    (hc1 : truthyOpt w.cosmos_endpoint = true) (hc2 : truthyOpt w.cosmos_key = true)
    (hc3 : truthyOpt w.cosmos_database = true)
    (hc4 : truthyOpt w.cosmos_container = true)
    (hw : w.createItem (composeDoc w user_id sub blob_url
      (get_username_from_db w.mysql user_id) ext.data) = .error msg) :
    (afterOwner w blob_url container blob_path user_id sub l2).ret = .unitReturn ∧
    (afterOwner w blob_url container blob_path user_id sub l2).written = [] ∧
    (afterOwner w blob_url container blob_path user_id sub l2).writeCalls = 1 ∧
    (⟨.error, true, "cosmos_error"⟩ : LogEntry) ∈
      (afterOwner w blob_url container blob_path user_id sub l2).log := by
  unfold afterOwner
  dsimp only
  rw [if_neg (by simp [hdiE, hdiK])]
  simp only [hout]
  rw [if_neg (by simp [gate_false hfe hmo]),
    if_neg (by simp [hc1, hc2, hc3, hc4])]
  simp only [hw]
  refine ⟨?_, ?_, ?_, ?_⟩ <;> first | trivial | simp

/-- Counterexample to C5 as stated: a missing certificate file is one of
the claim's listed failure modes, yet here the resolver does not yield
null — the source logs the problem and attempts the connection without
the certificate, and the username comes back. -/
theorem c5_resolver_resilience_counterexample :
    mysqlCertMissing.fileExists mysqlCertMissing.caPath = false ∧
    truthyStr mysqlCertMissing.caPath = true ∧
    get_username_from_db mysqlCertMissing "user123" = some "alice" :=
  ⟨rfl, rfl, rfl⟩

/-- C5 (amended): the resolver never raises and degrades to null on
missing credentials, connection failure, query failure and user-not-found;
a specified-but-missing certificate file is only logged and the connection
is attempted without the certificate, so the result is then whatever the
connection and query yield; and when the resolver yields null the
pipeline continues and — provided extraction succeeded, the required
fields are present, Cosmos is configured and the insert is accepted —
still writes a document whose `username` is null. -/
theorem c5_resolver_resilience_amended :
    (∀ env uid, (truthyOpt env.host && truthyOpt env.user &&
        truthyOpt env.password && truthyOpt env.database) = false →
      get_username_from_db env uid = none) ∧
    (∀ env uid msg, env.connect (sslOptionsOf env) = .error msg →
      get_username_from_db env uid = none) ∧
    (∀ env uid msg, env.query uid = .error msg →
      get_username_from_db env uid = none) ∧
    (∀ env uid, env.query uid = .ok none →
      get_username_from_db env uid = none) ∧
    (∀ env uid, (truthyOpt env.host && truthyOpt env.user &&
        truthyOpt env.password && truthyOpt env.database) = true →
      env.fileExists env.caPath = false →
      get_username_from_db env uid = usernameAfterConnect env uid none) ∧
    (∀ (event : EventGridEvent) (w : World)
        (blob_url container blob_path user_id sub : String) (ext : ExtractOutcome),
      event.event_type = "Microsoft.Storage.BlobCreated" →
      event.url = some blob_url →
      parseBlobUrl blob_url = some (container, blob_path) →
      pyEndsWith blob_path "/.placeholder" = false →
      parseOwner blob_path = some (user_id, sub) →
      get_username_from_db w.mysql user_id = none →
      truthyOpt w.di_endpoint = true → truthyOpt w.di_key = true →
      (runDIPhase w container blob_path).outcome = some ext →
      ext.fecha.isSome = true → ext.monto.isSome = true →
      truthyOpt w.cosmos_endpoint = true → truthyOpt w.cosmos_key = true →
      truthyOpt w.cosmos_database = true → truthyOpt w.cosmos_container = true →
      w.createItem (composeDoc w user_id sub blob_url none ext.data) = .ok () →
      (func701 event w).written =
        [composeDoc w user_id sub blob_url none ext.data] ∧
      (func701 event w).writeCalls = 1) := by
  refine ⟨?_, ?_, ?_, ?_, ?_, ?_⟩
  · intro env uid h
    unfold get_username_from_db
    rw [if_pos (by simp [h])]
  · intro env uid msg h
    unfold get_username_from_db
    by_cases hc : (truthyOpt env.host && truthyOpt env.user &&
        truthyOpt env.password && truthyOpt env.database) = true
    · rw [if_neg (by simp [hc])]
      unfold usernameAfterConnect
      simp only [h]
    · have hcf : (truthyOpt env.host && truthyOpt env.user &&
          truthyOpt env.password && truthyOpt env.database) = false :=
        Bool.eq_false_iff.mpr hc
      rw [if_pos (by simp [hcf])]
  · intro env uid msg h
    unfold get_username_from_db
    by_cases hc : (truthyOpt env.host && truthyOpt env.user &&
        truthyOpt env.password && truthyOpt env.database) = true
    · rw [if_neg (by simp [hc])]
      unfold usernameAfterConnect
      cases hcn : env.connect (sslOptionsOf env) with
      | error e => rfl
      | ok u => simp only [h]
    · have hcf : (truthyOpt env.host && truthyOpt env.user &&
          truthyOpt env.password && truthyOpt env.database) = false :=
        Bool.eq_false_iff.mpr hc
      rw [if_pos (by simp [hcf])]
  · intro env uid h
    unfold get_username_from_db
    by_cases hc : (truthyOpt env.host && truthyOpt env.user &&
        truthyOpt env.password && truthyOpt env.database) = true
    · rw [if_neg (by simp [hc])]
      unfold usernameAfterConnect
      cases hcn : env.connect (sslOptionsOf env) with
      | error e => rfl
      | ok u => simp only [h]
    · have hcf : (truthyOpt env.host && truthyOpt env.user &&
          truthyOpt env.password && truthyOpt env.database) = false :=
        Bool.eq_false_iff.mpr hc
      rw [if_pos (by simp [hcf])]
  · intro env uid hc hfile
    unfold get_username_from_db
    rw [if_neg (by simp [hc])]
    have hssl : sslOptionsOf env = none := by
      unfold sslOptionsOf
      rw [if_neg (by simp [hfile])]
    rw [hssl]
  · intro event w blob_url container blob_path user_id sub ext htype hurl hparse
      hph hown hnone hdiE hdiK hout hfe hmo hc1 hc2 hc3 hc4 hw
    rw [func701_reach_afterOwner event w blob_url container blob_path user_id sub
      htype hurl hparse hph hown]
    have := afterOwner_ok w blob_url container blob_path user_id sub
      [⟨.info, false, "function_started"⟩, ⟨.info, false, "processing_blob_url"⟩,
       ⟨.info, false, "processing_blob_for_user"⟩] ext
      hdiE hdiK hout hfe hmo hc1 hc2 hc3 hc4 (by rw [hnone]; exact hw)
    rw [hnone] at this
    exact ⟨this.1, this.2.1⟩

/-- Witness for C5's amended pipeline part: `happyWorld` has no MySQL
credentials, the resolver yields null, and the run still persists a
document with a null username. -/
theorem c5_resolver_resilience_amended_witness :
    (func701 happyEvent happyWorld).written =
      [composeDoc happyWorld "user123" "subdirABC" exUrl none
        (processResult { documents := [happyDoc] }).data] :=
  (c5_resolver_resilience_amended.2.2.2.2.2 happyEvent happyWorld exUrl
    "container" exObjectPath "user123" "subdirABC"
    (processResult { documents := [happyDoc] })
    rfl rfl (by decide) (by decide) (by decide) rfl rfl rfl rfl rfl rfl
    rfl rfl rfl rfl rfl).1

/-- The guarded extraction block talks to each collaborator at most
once. -/
theorem runDIPhase_calls_le (w : World) (c p : String) :
    (runDIPhase w c p).fetchCalls ≤ 1 ∧ (runDIPhase w c p).analyzeCalls ≤ 1 := by
  unfold runDIPhase
  split
  · exact ⟨Nat.zero_le 1, Nat.zero_le 1⟩
  · split
    · exact ⟨Nat.le_refl 1, Nat.zero_le 1⟩
    · dsimp only
      split <;> exact ⟨Nat.le_refl 1, Nat.le_refl 1⟩

/-- Counterexample to C8 as stated: when the blob fetch raises, the
handler catches the error and completes with the same plain return as
every benign path — the invocation does not end in failure; the error is
logged with the traceback, nothing is written, and the fetch is invoked
exactly once. -/
theorem c8_fatal_counterexample :
    (func701 happyEvent fetchFailWorld).ret = .unitReturn ∧
    (func701 happyEvent fetchFailWorld).fetchCalls = 1 ∧
    (func701 happyEvent fetchFailWorld).analyzeCalls = 0 ∧
    (func701 happyEvent fetchFailWorld).writeCalls = 0 ∧
    (func701 happyEvent fetchFailWorld).written = [] ∧
    (func701 happyEvent fetchFailWorld).log =
      [⟨.info, false, "function_started"⟩, ⟨.info, false, "processing_blob_url"⟩,
       ⟨.info, false, "processing_blob_for_user"⟩,
       ⟨.warning, false, "proceeding_without_username"⟩,
       ⟨.error, true, "di_processing_error"⟩] :=
  ⟨rfl, rfl, rfl, rfl, rfl, rfl⟩

/-- C8 (amended): a raised blob fetch, extraction call or document write
is caught and logged with full diagnostic detail, the handler returns
normally (nothing is persisted from the failed path), and no in-process
retry happens — every collaborator is invoked at most once per run. -/
theorem c8_fatal_to_invocation_amended :
    (∀ (event : EventGridEvent) (w : World),
      (func701 event w).resolverCalls ≤ 1 ∧ (func701 event w).fetchCalls ≤ 1 ∧
      (func701 event w).analyzeCalls ≤ 1 ∧ (func701 event w).writeCalls ≤ 1) ∧
    (∀ (w : World) (c p s msg : String),
      w.azureWebJobsStorage = some s → w.downloadBlob c p = .error msg →
      (runDIPhase w c p).outcome = none ∧ (runDIPhase w c p).fetchCalls = 1 ∧
      (runDIPhase w c p).analyzeCalls = 0) ∧
    (∀ (w : World) (c p s : String) (content : Bytes),
      w.azureWebJobsStorage = some s → w.downloadBlob c p = .ok content →
      (∀ b, ∃ msg, w.analyze b = .error msg) →
      (runDIPhase w c p).outcome = none ∧ (runDIPhase w c p).fetchCalls = 1 ∧
      (runDIPhase w c p).analyzeCalls = 1) ∧
    (∀ (event : EventGridEvent) (w : World)
        (blob_url container blob_path user_id sub : String),
      event.event_type = "Microsoft.Storage.BlobCreated" →
      event.url = some blob_url →
      parseBlobUrl blob_url = some (container, blob_path) →
      pyEndsWith blob_path "/.placeholder" = false →
      parseOwner blob_path = some (user_id, sub) →
      truthyOpt w.di_endpoint = true → truthyOpt w.di_key = true →
      (runDIPhase w container blob_path).outcome = none →
      (func701 event w).ret = .unitReturn ∧ (func701 event w).written = [] ∧
      (func701 event w).writeCalls = 0 ∧
      (⟨.error, true, "di_processing_error"⟩ : LogEntry) ∈ (func701 event w).log) ∧
    (∀ (event : EventGridEvent) (w : World)
        (blob_url container blob_path user_id sub : String)
        (ext : ExtractOutcome) (msg : String),
      event.event_type = "Microsoft.Storage.BlobCreated" →
      event.url = some blob_url →
      parseBlobUrl blob_url = some (container, blob_path) →
      pyEndsWith blob_path "/.placeholder" = false →
      parseOwner blob_path = some (user_id, sub) →
      truthyOpt w.di_endpoint = true → truthyOpt w.di_key = true →
      (runDIPhase w container blob_path).outcome = some ext →
      ext.fecha.isSome = true → ext.monto.isSome = true →
      truthyOpt w.cosmos_endpoint = true → truthyOpt w.cosmos_key = true →
      truthyOpt w.cosmos_database = true → truthyOpt w.cosmos_container = true →
      w.createItem (composeDoc w user_id sub blob_url
        (get_username_from_db w.mysql user_id) ext.data) = .error msg →
      (func701 event w).ret = .unitReturn ∧ (func701 event w).written = [] ∧
      (func701 event w).writeCalls = 1 ∧
      (⟨.error, true, "cosmos_error"⟩ : LogEntry) ∈ (func701 event w).log) := by
  refine ⟨?_, ?_, ?_, ?_, ?_⟩
  · intro event w
    unfold func701 blobCreatedBranch afterOwner
    dsimp only
    repeat' split
    all_goals
      first
        | exact ⟨Nat.zero_le 1, Nat.zero_le 1, Nat.zero_le 1, Nat.zero_le 1⟩
        | exact ⟨Nat.le_refl 1, Nat.zero_le 1, Nat.zero_le 1, Nat.zero_le 1⟩
        | exact ⟨Nat.le_refl 1, (runDIPhase_calls_le _ _ _).1,
            (runDIPhase_calls_le _ _ _).2, Nat.zero_le 1⟩
        | exact ⟨Nat.le_refl 1, (runDIPhase_calls_le _ _ _).1,
            (runDIPhase_calls_le _ _ _).2, Nat.le_refl 1⟩
  · intro w c p s msg hs hf
    unfold runDIPhase
    simp only [hs, hf]
    refine ⟨?_, ?_, ?_⟩ <;> trivial
  · intro w c p s content hs hf hana
    unfold runDIPhase
    simp only [hs, hf]
    cases hn : w.normalizeImage content with
    | ok b =>
      simp only [hn]
      obtain ⟨m, hm⟩ := hana b
      simp only [hm]
      refine ⟨?_, ?_, ?_⟩ <;> trivial
    | error e =>
      simp only [hn]
      obtain ⟨m, hm⟩ := hana content
      simp only [hm]
      refine ⟨?_, ?_, ?_⟩ <;> trivial
  · intro event w blob_url container blob_path user_id sub htype hurl hparse
      hph hown hdiE hdiK hout
    rw [func701_reach_afterOwner event w blob_url container blob_path user_id sub
      htype hurl hparse hph hown]
    exact afterOwner_extraction_raised w blob_url container blob_path user_id sub
      _ hdiE hdiK hout
  · intro event w blob_url container blob_path user_id sub ext msg htype hurl
      hparse hph hown hdiE hdiK hout hfe hmo hc1 hc2 hc3 hc4 hw
    rw [func701_reach_afterOwner event w blob_url container blob_path user_id sub
      htype hurl hparse hph hown]
    exact afterOwner_write_raised w blob_url container blob_path user_id sub
      _ ext msg hdiE hdiK hout hfe hmo hc1 hc2 hc3 hc4 hw

/-- Witness for C8's amended statement: a concrete failing fetch yields a
caught error, no write and exactly one fetch attempt. -/
theorem c8_fatal_to_invocation_amended_witness :
    (runDIPhase fetchFailWorld "container" exObjectPath).outcome = none ∧
    (runDIPhase fetchFailWorld "container" exObjectPath).fetchCalls = 1 ∧
    (runDIPhase fetchFailWorld "container" exObjectPath).analyzeCalls = 0 :=
  c8_fatal_to_invocation_amended.2.1 fetchFailWorld "container" exObjectPath
    "storageconn" "server busy" rfl rfl

end AppInvoices
